import Mathlib

/-!
Verification development for the PaperLens multi-provider LLM abstraction
layer (src/js/llm.js).  The adapters, the dispatcher and the streaming
callback contract are embedded shallowly: network transports become
explicit inputs, the callback object becomes an ordered event trace, and
an uncaught JavaScript exception becomes an explicit rejection value.
-/

namespace PaperLens

/-- Message roles of the generic chat model (src/src/llm.ts, ChatMessage). -/
inductive Role where
  | system
  | user
  | assistant
deriving DecidableEq, Repr

/-- Element of the generic message sequence handed to every adapter. -/
structure ChatMessage where
  role : Role
  content : String
deriving DecidableEq, Repr

/-- JavaScript exception values thrown by the code under scrutiny:
`Error` objects created with `new Error(msg)` and engine-raised
`TypeError`s (reading a property of `undefined` or `null`). -/
inductive JsError where
  | error (msg : String)
  | typeError (msg : String)
deriving DecidableEq, Repr

/-- JSON values as produced by `JSON.parse`.  Numbers keep their raw
source text, which is all the code under scrutiny ever needs (numbers are
only ever inspected for truthiness). -/
inductive Json where
  | null
  | bool (b : Bool)
  | num (raw : String)
  | str (s : String)
  | arr (xs : List Json)
  | obj (fields : List (String × Json))

/-- Strict equality `v === "s"` of a possibly-`undefined` value with a
string literal, as used on the `type` and `event_type` fields. -/
def isStrEq (v : Option Json) (s : String) : Bool :=
  match v with
  | some (.str t) => t == s
  | _ => false

/-- Last-occurrence field lookup: `JSON.parse` keeps the last duplicate
key, and JavaScript property lookup then finds that value. -/
def lookupField (fs : List (String × Json)) (k : String) : Option Json :=
  fs.foldl (fun acc p => if p.1 = k then some p.2 else acc) none

/-- JavaScript truthiness of a defined value (`if (content)`). -/
def Json.truthy : Json → Bool
  | .null => false
  | .bool b => b
  | .num raw =>
      ((raw.data.takeWhile (fun c => c != 'e' && c != 'E')).any
        (fun c => '1' ≤ c && c ≤ '9'))
  | .str s => s ≠ ""
  | .arr _ => true
  | .obj _ => true

/-- Truthiness of a possibly-`undefined` value (`none` is `undefined`). -/
def jsTruthy : Option Json → Bool
  | none => false
  | some j => j.truthy

/-- Plain JavaScript property access `v.k`: throws a `TypeError` on
`undefined` or `null`, yields the field of an object, and `undefined` on
every primitive (none of the keys used by the code exists on a JavaScript
primitive wrapper). -/
def jsGet (v : Option Json) (k : String) : Except JsError (Option Json) :=
  match v with
  | none => .error (.typeError ("Cannot read properties of undefined (reading " ++ k ++ ")"))
  | some .null => .error (.typeError ("Cannot read properties of null (reading " ++ k ++ ")"))
  | some (.obj fs) => .ok (lookupField fs k)
  | some _ => .ok none

/-- Optional-chained property access `v?.k`: `undefined` and `null`
short-circuit to `undefined` instead of throwing. -/
def jsOptGet (v : Option Json) (k : String) : Option Json :=
  match v with
  | none => none
  | some .null => none
  | some (.obj fs) => lookupField fs k
  | some _ => none

/-- Optional-chained index access `v?.[i]`: array element, character of a
string, numeric-keyed object field, `undefined` otherwise. -/
def jsOptIndex (v : Option Json) (i : Nat) : Option Json :=
  match v with
  | none => none
  | some .null => none
  | some (.arr xs) => xs.get? i
  | some (.obj fs) => lookupField fs (toString i)
  | some (.str s) => (s.data.get? i).map (fun c => Json.str (String.mk [c]))
  | some _ => none

/-- Plain index access `v[i]` (throws on `undefined`/`null`). -/
def jsIndex (v : Option Json) (i : Nat) : Except JsError (Option Json) :=
  match v with
  | none => .error (.typeError ("Cannot read properties of undefined (reading " ++ toString i ++ ")"))
  | some .null => .error (.typeError ("Cannot read properties of null (reading " ++ toString i ++ ")"))
  | some j => .ok (jsOptIndex (some j) i)

/-! JSON parsing.  `JSON.parse` is modelled by a recursive-descent parser
over the character list of the input, returning `none` exactly when
`JSON.parse` would throw a `SyntaxError`.  Lone `\u` escapes outside the
valid scalar range decode to the null character, a harmless approximation
of the host engine's UTF-16 behaviour. -/

/-- JSON insignificant whitespace (space, tab, line feed, carriage return). -/
def skipWs : List Char → List Char
  | [] => []
  | c :: cs => if c == ' ' || c == '\t' || c == '\n' || c == '\r' then skipWs cs else c :: cs

/-- Hexadecimal digit value, for string escapes (code-point arithmetic:
48-57 are the digits, 97-102 and 65-70 the two letter ranges). -/
def hexVal (c : Char) : Option Nat :=
  let n := c.toNat
  if 48 ≤ n ∧ n ≤ 57 then some (n - 48)
  else if 97 ≤ n ∧ n ≤ 102 then some (n - 87)
  else if 65 ≤ n ∧ n ≤ 70 then some (n - 55)
  else none

/-- Body of a JSON string after the opening quote: returns the decoded
characters and the input remaining after the closing quote. -/
def parseStringBody : List Char → Option (List Char × List Char)
  | [] => none
  | '"' :: rest => some ([], rest)
  | '\\' :: e :: rest =>
      match e with
      | '"' => (parseStringBody rest).map (fun p => ('"' :: p.1, p.2))
      | '\\' => (parseStringBody rest).map (fun p => ('\\' :: p.1, p.2))
      | '/' => (parseStringBody rest).map (fun p => ('/' :: p.1, p.2))
      | 'b' => (parseStringBody rest).map (fun p => ('\x08' :: p.1, p.2))
      | 'f' => (parseStringBody rest).map (fun p => ('\x0c' :: p.1, p.2))
      | 'n' => (parseStringBody rest).map (fun p => ('\n' :: p.1, p.2))
      | 'r' => (parseStringBody rest).map (fun p => ('\r' :: p.1, p.2))
      | 't' => (parseStringBody rest).map (fun p => ('\t' :: p.1, p.2))
      | 'u' =>
          match rest with
          | h1 :: h2 :: h3 :: h4 :: rest4 =>
              match hexVal h1, hexVal h2, hexVal h3, hexVal h4 with
              | some a, some b, some c, some d =>
                  (parseStringBody rest4).map
                    (fun p => (Char.ofNat (a * 4096 + b * 256 + c * 16 + d) :: p.1, p.2))
              | _, _, _, _ => none
          | _ => none
      | _ => none
  | c :: rest =>
      if c.toNat < 32 then none
      else (parseStringBody rest).map (fun p => (c :: p.1, p.2))

/-- Leading decimal digits of the input and the remaining characters. -/
def parseDigitsGo : List Char → (List Char × List Char)
  | [] => ([], [])
  | c :: cs =>
      if '0' ≤ c && c ≤ '9' then
        let p := parseDigitsGo cs
        (c :: p.1, p.2)
      else ([], c :: cs)

/-- Optional fraction then optional exponent of a JSON number; the first
component is `none` on a malformed fraction or exponent. -/
def parseFracExp (cs : List Char) : Option (List Char) × List Char :=
  let (fr, cs1) :=
    match cs with
    | '.' :: rest =>
        let p := parseDigitsGo rest
        if p.1.isEmpty then ((none : Option (List Char)), cs)
        else (some ('.' :: p.1), p.2)
    | _ => (some [], cs)
  match fr with
  | none => (none, cs)
  | some frChars =>
    match cs1 with
    | e :: rest =>
        if e == 'e' || e == 'E' then
          let (sgn, rest1) :=
            match rest with
            | '+' :: r => (['+'], r)
            | '-' :: r => (['-'], r)
            | _ => (([] : List Char), rest)
          let p := parseDigitsGo rest1
          if p.1.isEmpty then (none, cs1)
          else (some (frChars ++ (e :: sgn) ++ p.1), p.2)
        else (some frChars, cs1)
    | [] => (some frChars, cs1)

/-- JSON number grammar: optional minus, integer part without leading
zeros, optional fraction, optional exponent.  Returns the raw literal. -/
def parseNumber (cs : List Char) : Option (List Char × List Char) :=
  let (sign, cs1) :=
    match cs with
    | '-' :: rest => (['-'], rest)
    | _ => (([] : List Char), cs)
  match cs1 with
  | [] => none
  | c :: rest =>
    if c == '0' then
      let (fr, cs2) := parseFracExp rest
      match fr with
      | none => none
      | some frChars => some (sign ++ ['0'] ++ frChars, cs2)
    else if '1' ≤ c && c ≤ '9' then
      let p := parseDigitsGo rest
      let (fr, cs2) := parseFracExp p.2
      match fr with
      | none => none
      | some frChars => some (sign ++ (c :: p.1) ++ frChars, cs2)
    else none

mutual

/-- JSON value parser (fuel-indexed; fuel one beyond the input length is
always enough because every nesting level consumes a character). -/
def parseValue : Nat → List Char → Option (Json × List Char)
  | 0, _ => none
  | _ + 1, 'n' :: 'u' :: 'l' :: 'l' :: rest => some (.null, rest)
  | _ + 1, 't' :: 'r' :: 'u' :: 'e' :: rest => some (.bool true, rest)
  | _ + 1, 'f' :: 'a' :: 'l' :: 's' :: 'e' :: rest => some (.bool false, rest)
  | _ + 1, '"' :: rest =>
      (parseStringBody rest).map (fun p => (.str (String.mk p.1), p.2))
  | fuel + 1, '[' :: rest =>
      (match skipWs rest with
       | ']' :: rest1 => some (.arr [], rest1)
       | cs => (parseItems fuel cs).map (fun p => (.arr p.1, p.2)))
  | fuel + 1, '\x7b' :: rest =>
      (match skipWs rest with
       | '\x7d' :: rest1 => some (.obj [], rest1)
       | cs => (parseFields fuel cs).map (fun p => (.obj p.1, p.2)))
  | _ + 1, cs =>
      (parseNumber cs).map (fun p => (.num (String.mk p.1), p.2))

/-- Comma-separated array items up to the closing bracket. -/
def parseItems : Nat → List Char → Option (List Json × List Char)
  | 0, _ => none
  | fuel + 1, cs =>
      match parseValue fuel cs with
      | none => none
      | some (j, rest) =>
          match skipWs rest with
          | ']' :: rest1 => some ([j], rest1)
          | ',' :: rest1 =>
              (parseItems fuel (skipWs rest1)).map (fun p => (j :: p.1, p.2))
          | _ => none

/-- Comma-separated object members up to the closing brace. -/
def parseFields : Nat → List Char → Option (List (String × Json) × List Char)
  | 0, _ => none
  | fuel + 1, cs =>
      match cs with
      | '"' :: rest =>
          match parseStringBody rest with
          | none => none
          | some (key, rest1) =>
              match skipWs rest1 with
              | ':' :: rest2 =>
                  match parseValue fuel (skipWs rest2) with
                  | none => none
                  | some (j, rest3) =>
                      match skipWs rest3 with
                      | '\x7d' :: rest4 => some ([(String.mk key, j)], rest4)
                      | ',' :: rest4 =>
                          (parseFields fuel (skipWs rest4)).map
                            (fun p => ((String.mk key, j) :: p.1, p.2))
                      | _ => none
              | _ => none
      | _ => none

end

/-- Model of `JSON.parse`: `none` exactly when it would throw. -/
def jsonParse (s : String) : Option Json :=
  match parseValue (s.data.length + 1) (skipWs s.data) with
  | some (j, rest) => if (skipWs rest).isEmpty then some j else none
  | none => none

/-! Chunk framing.  Each decoded chunk is split on newlines and blank
lines are dropped, `chunk.split('\n').filter(line => line.trim() !== '')`
(src/js/llm.js:110).  The JavaScript string operations are modelled on
the character list of the chunk. -/

/-- Split on the newline character, keeping empty segments, exactly as
`chunk.split('\n')`. -/
def splitNl : List Char → List (List Char)
  | [] => [[]]
  | c :: cs =>
      if c == '\n' then [] :: splitNl cs
      else
        match splitNl cs with
        | [] => [[c]]
        | l :: ls => (c :: l) :: ls

/-- Whether `line.trim() !== ''` holds: the line has a character that
`trim` keeps (ASCII whitespace modelled; the frames are ASCII). -/
def hasNonWs (cs : List Char) : Bool :=
  cs.any (fun c =>
    !(c == ' ' || c == '\t' || c == '\n' || c == '\r' || c == '\x0b' || c == '\x0c'))

/-- Whether the first list is an initial segment of the second, as
`line.startsWith('data: ')`. -/
def charsStartWith : List Char → List Char → Bool
  | [], _ => true
  | _ :: _, [] => false
  | p :: ps, c :: cs => p == c && charsStartWith ps cs

/-- Non-blank lines of one decoded chunk, in order. -/
def chunkLines (chunk : String) : List String :=
  ((splitNl chunk.data).filter hasNonWs).map String.mk

/-- One invocation of the caller-supplied streaming callback bundle.
The adapters' behaviour is recorded as the ordered trace of these. -/
inductive CbEvent where
  | token (v : Json)
  | complete
  | error (e : JsError)

/-! Per-backend frame handling.  Each handler receives the payload after
the `data: ` marker and returns the callback events it fires plus a flag
that is `true` exactly when the adapter executes `return` (terminal
marker reached). -/

/-- Token extraction `parsed.choices?.[0]?.delta?.content`
(src/js/llm.js:120).  The only plain (throwing) access is `.choices`. -/
def openaiDelta (parsed : Json) : Except JsError (Option Json) :=
  match jsGet (some parsed) "choices" with
  | .error e => .error e
  | .ok c => .ok (jsOptGet (jsOptGet (jsOptIndex c 0) "delta") "content")

/-- Frame body of `callOpenAIStreaming` for a parsed frame
(src/js/llm.js:119-123); a `TypeError` escaping the per-frame `try` is
caught and the frame skipped. -/
def openaiFrame (parsed : Json) : List CbEvent × Bool :=
  match openaiDelta parsed with
  | .error _ => ([], false)
  | .ok none => ([], false)
  | .ok (some v) => if v.truthy then ([.token v], false) else ([], false)

/-- Payload handler of `callOpenAIStreaming` (src/js/llm.js:113-127):
the `[DONE]` sentinel completes before any JSON parsing; an unparseable
payload is skipped. -/
def openaiHandleData (data : String) : List CbEvent × Bool :=
  if data = "[DONE]" then ([.complete], true)
  else
    match jsonParse data with
    | none => ([], false)
    | some parsed => openaiFrame parsed

/-- Frame body of `callAnthropicStreaming` (src/js/llm.js:176-186):
`content_block_delta` frames contribute `parsed.delta?.text`,
`message_stop` completes, anything else is ignored. -/
def anthropicFrame (parsed : Json) : List CbEvent × Bool :=
  match jsGet (some parsed) "type" with
  | .error _ => ([], false)
  | .ok t =>
      if isStrEq t "content_block_delta" then
        match jsGet (some parsed) "delta" with
        | .error _ => ([], false)
        | .ok d =>
            match jsOptGet d "text" with
            | none => ([], false)
            | some v => if v.truthy then ([.token v], false) else ([], false)
      else if isStrEq t "message_stop" then ([.complete], true)
      else ([], false)

/-- Payload handler of `callAnthropicStreaming` (src/js/llm.js:175-190). -/
def anthropicHandleData (data : String) : List CbEvent × Bool :=
  match jsonParse data with
  | none => ([], false)
  | some parsed => anthropicFrame parsed

/-- Frame body of `callCohereStreaming` (src/js/llm.js:237-247):
`text-generation` frames contribute `parsed.text`, `stream-end`
completes, anything else is ignored. -/
def cohereFrame (parsed : Json) : List CbEvent × Bool :=
  match jsGet (some parsed) "event_type" with
  | .error _ => ([], false)
  | .ok t =>
      if isStrEq t "text-generation" then
        match jsGet (some parsed) "text" with
        | .error _ => ([], false)
        | .ok none => ([], false)
        | .ok (some v) => if v.truthy then ([.token v], false) else ([], false)
      else if isStrEq t "stream-end" then ([.complete], true)
      else ([], false)

/-- Payload handler of `callCohereStreaming` (src/js/llm.js:236-251). -/
def cohereHandleData (data : String) : List CbEvent × Bool :=
  match jsonParse data with
  | none => ([], false)
  | some parsed => cohereFrame parsed

/-- One line of a chunk: only lines starting with `data: ` are handled,
with the six-character marker stripped (src/js/llm.js:112-113). -/
def handleLine (h : String → List CbEvent × Bool) (line : String) : List CbEvent × Bool :=
  if charsStartWith "data: ".data line.data then
    h (String.mk (line.data.drop 6))
  else ([], false)

/-- The inner `for (const line of lines)` loop, stopping at a `return`. -/
def runLines (h : String → List CbEvent × Bool) : List String → List CbEvent × Bool
  | [] => ([], false)
  | l :: ls =>
      let r := handleLine h l
      if r.2 then r
      else (r.1 ++ (runLines h ls).1, (runLines h ls).2)

/-- The outer `while (true)` read loop over the decoded chunks; an
exhausted transport (`done`) breaks out with no further events. -/
def runChunks (h : String → List CbEvent × Bool) : List String → List CbEvent × Bool
  | [] => ([], false)
  | c :: cs =>
      let r := runLines h (chunkLines c)
      if r.2 then r
      else (r.1 ++ (runChunks h cs).1, (runChunks h cs).2)

/-- The read loop wrapped in its `try`/`catch`: a read failure after the
delivered chunks fires `onError` once, unless the adapter already
returned at a terminal marker (src/js/llm.js:104-135). -/
def runStreamBody (h : String → List CbEvent × Bool) (chunks : List String)
    (readError : Option JsError) : List CbEvent :=
  let r := runChunks h chunks
  if r.2 then r.1
  else
    match readError with
    | some e => r.1 ++ [.error e]
    | none => r.1

/-- Transport behaviour backing one streaming request: whether `fetch`
itself rejects, the response status, whether `response.body` yields a
reader, the successively read (and decoded) chunks, and whether the read
after the last chunk fails instead of reporting `done`. -/
structure StreamFetch where
  reject : Option JsError
  ok : Bool
  status : Nat
  hasReader : Bool
  chunks : List String
  readError : Option JsError

/-- Transport behaviour backing one single-shot request: whether `fetch`
rejects, the response status and its parsed JSON body.  A body that fails
to parse (a `response.json()` rejection) is not modelled; no claim
exercises it. -/
structure SingleFetch where
  reject : Option JsError
  ok : Bool
  status : Nat
  body : Json

/-- Roles that the Anthropic request format admits. -/
inductive OutRole where
  | user
  | assistant
deriving DecidableEq, Repr

/-- One entry of the Anthropic request's `messages` array. -/
structure AnthropicMessage where
  role : OutRole
  content : String
deriving DecidableEq, Repr

/-- Request body sent to the OpenAI endpoint (src/js/llm.js:83-94). -/
structure OpenAIRequest where
  apiKey : String
  model : String
  messages : List ChatMessage
  stream : Bool
deriving DecidableEq, Repr

/-- Request body sent to the Anthropic endpoint (src/js/llm.js:137-155). -/
structure AnthropicRequest where
  apiKey : String
  model : String
  messages : List AnthropicMessage
  system : String
  stream : Bool
deriving DecidableEq, Repr

/-- Request body sent to the Cohere endpoint (src/js/llm.js:204-216):
a single `message` string plus a `preamble`, no history field. -/
structure CohereRequest where
  apiKey : String
  model : String
  message : String
  preamble : String
  stream : Bool
deriving DecidableEq, Repr

/-- A network request issued by an adapter. -/
inductive Request where
  | openai (r : OpenAIRequest)
  | anthropic (r : AnthropicRequest)
  | cohere (r : CohereRequest)
deriving DecidableEq, Repr

def OPENAI_MODEL : String := "gpt-5"
def ANTHROPIC_MODEL : String := "claude-opus-4-1-20250805"
def COHERE_MODEL : String := "command-a-03-2025"

/-- The conversation without its system messages,
`messages.filter((m) => m.role !== "system")`. -/
def nonSystemMessages (messages : List ChatMessage) : List ChatMessage :=
  messages.filter (fun m => m.role ≠ Role.system)

/-- The preamble `messages.find((m) => m.role === "system")?.content || ""`. -/
def systemSlot (messages : List ChatMessage) : String :=
  match messages.find? (fun m => m.role = Role.system) with
  | some m => m.content
  | none => ""

/-- The Anthropic conversation mapping: assistant-authored messages keep
the assistant role, everything else becomes user-authored
(src/js/llm.js:44-48). -/
def anthropicMessages (messages : List ChatMessage) : List AnthropicMessage :=
  (nonSystemMessages messages).map (fun m =>
    { role := if m.role = Role.assistant then OutRole.assistant else OutRole.user
      content := m.content })

/-- Observable outcome of one streaming adapter call: the requests it
issued, the callback trace, and - when an exception escapes the async
function - the rejection value of the returned promise. -/
structure StreamResult where
  requests : List Request
  events : List CbEvent
  outcome : Option JsError

/-- The `TypeError` raised by `lastMessage.content` when the non-system
message list is empty (engine-typical message text). -/
def contentOfUndefined : JsError :=
  .typeError "Cannot read properties of undefined (reading content)"

/-- Embeds `callOpenAIStreaming` (src/js/llm.js:82-135).  The initial
`await fetch` is outside every `try`, so a rejected fetch escapes as a
rejection of the adapter's promise. -/
def callOpenAIStreaming (messages : List ChatMessage) (apiKey : String)
    (t : StreamFetch) : StreamResult :=
  let req := Request.openai
    { apiKey := apiKey, model := OPENAI_MODEL, messages := messages, stream := true }
  match t.reject with
  | some e => { requests := [req], events := [], outcome := some e }
  | none =>
      if !t.ok then
        { requests := [req]
          events := [.error (.error ("OpenAI API error: " ++ toString t.status))]
          outcome := none }
      else if !t.hasReader then
        { requests := [req]
          events := [.error (.error "Failed to get response reader")]
          outcome := none }
      else
        { requests := [req]
          events := runStreamBody openaiHandleData t.chunks t.readError
          outcome := none }

/-- Embeds `callAnthropicStreaming` (src/js/llm.js:136-198). -/
def callAnthropicStreaming (messages : List ChatMessage) (apiKey : String)
    (t : StreamFetch) : StreamResult :=
  let req := Request.anthropic
    { apiKey := apiKey, model := ANTHROPIC_MODEL
      messages := anthropicMessages messages
      system := systemSlot messages, stream := true }
  match t.reject with
  | some e => { requests := [req], events := [], outcome := some e }
  | none =>
      if !t.ok then
        { requests := [req]
          events := [.error (.error ("Anthropic API error: " ++ toString t.status))]
          outcome := none }
      else if !t.hasReader then
        { requests := [req]
          events := [.error (.error "Failed to get response reader")]
          outcome := none }
      else
        { requests := [req]
          events := runStreamBody anthropicHandleData t.chunks t.readError
          outcome := none }

/-- Embeds `callCohereStreaming` (src/js/llm.js:199-259).  The access
`lastMessage.content` happens while building the request body, before
`fetch` and outside every `try`: with no non-system message it raises a
`TypeError` that rejects the promise with no request and no callback. -/
def callCohereStreaming (messages : List ChatMessage) (apiKey : String)
    (t : StreamFetch) : StreamResult :=
  let userMessages := nonSystemMessages messages
  match userMessages.getLast? with
  | none => { requests := [], events := [], outcome := some contentOfUndefined }
  | some lastMessage =>
      let req := Request.cohere
        { apiKey := apiKey, model := COHERE_MODEL
          message := lastMessage.content
          preamble := systemSlot messages, stream := true }
      match t.reject with
      | some e => { requests := [req], events := [], outcome := some e }
      | none =>
          if !t.ok then
            { requests := [req]
              events := [.error (.error ("Cohere API error: " ++ toString t.status))]
              outcome := none }
          else if !t.hasReader then
            { requests := [req]
              events := [.error (.error "Failed to get response reader")]
              outcome := none }
          else
            { requests := [req]
              events := runStreamBody cohereHandleData t.chunks t.readError
              outcome := none }

/-- Observable outcome of one single-shot adapter call: the requests it
issued and the settled value of its promise (`Except.ok none` is a
resolution with the JavaScript value `undefined`). -/
structure CallResult where
  requests : List Request
  result : Except JsError (Option Json)

/-- Extraction `data.choices[0].message.content` (src/js/llm.js:31);
every access is plain, so a missing container throws. -/
def openaiExtract (data : Json) : Except JsError (Option Json) :=
  match jsGet (some data) "choices" with
  | .error e => .error e
  | .ok c =>
      match jsIndex c 0 with
      | .error e => .error e
      | .ok c0 =>
          match jsGet c0 "message" with
          | .error e => .error e
          | .ok m => jsGet m "content"

/-- Extraction `data.content[0].text` (src/js/llm.js:56). -/
def anthropicExtract (data : Json) : Except JsError (Option Json) :=
  match jsGet (some data) "content" with
  | .error e => .error e
  | .ok c =>
      match jsIndex c 0 with
      | .error e => .error e
      | .ok c0 => jsGet c0 "text"

/-- Extraction `data.text` (src/js/llm.js:79). -/
def cohereExtract (data : Json) : Except JsError (Option Json) :=
  jsGet (some data) "text"

/-- Embeds `callOpenAI` (src/js/llm.js:15-32). -/
def callOpenAI (messages : List ChatMessage) (apiKey : String)
    (t : SingleFetch) : CallResult :=
  let req := Request.openai
    { apiKey := apiKey, model := OPENAI_MODEL, messages := messages, stream := false }
  match t.reject with
  | some e => { requests := [req], result := .error e }
  | none =>
      if !t.ok then
        { requests := [req]
          result := .error (.error ("OpenAI API error: " ++ toString t.status)) }
      else { requests := [req], result := openaiExtract t.body }

/-- Embeds `callAnthropic` (src/js/llm.js:33-57). -/
def callAnthropic (messages : List ChatMessage) (apiKey : String)
    (t : SingleFetch) : CallResult :=
  let req := Request.anthropic
    { apiKey := apiKey, model := ANTHROPIC_MODEL
      messages := anthropicMessages messages
      system := systemSlot messages, stream := false }
  match t.reject with
  | some e => { requests := [req], result := .error e }
  | none =>
      if !t.ok then
        { requests := [req]
          result := .error (.error ("Anthropic API error: " ++ toString t.status)) }
      else { requests := [req], result := anthropicExtract t.body }

/-- Embeds `callCohere` (src/js/llm.js:58-80); as in the streaming
variant, `lastMessage.content` is evaluated before the request is built. -/
def callCohere (messages : List ChatMessage) (apiKey : String)
    (t : SingleFetch) : CallResult :=
  let userMessages := nonSystemMessages messages
  match userMessages.getLast? with
  | none => { requests := [], result := .error contentOfUndefined }
  | some lastMessage =>
      let req := Request.cohere
        { apiKey := apiKey, model := COHERE_MODEL
          message := lastMessage.content
          preamble := systemSlot messages, stream := false }
      match t.reject with
      | some e => { requests := [req], result := .error e }
      | none =>
          if !t.ok then
            { requests := [req]
              result := .error (.error ("Cohere API error: " ++ toString t.status)) }
          else { requests := [req], result := cohereExtract t.body }

/-- Embeds the dispatcher `callLLM` (src/js/llm.js:261-272): route by
provider id, throw `Unknown provider` otherwise. -/
def callLLM (messages : List ChatMessage) (provider : String) (apiKey : String)
    (t : SingleFetch) : CallResult :=
  if provider = "openai" then callOpenAI messages apiKey t
  else if provider = "anthropic" then callAnthropic messages apiKey t
  else if provider = "cohere" then callCohere messages apiKey t
  else { requests := [], result := .error (.error ("Unknown provider: " ++ provider)) }

/-- Embeds the dispatcher `callLLMStreaming` (src/js/llm.js:274-285):
route by provider id, report an unknown provider through `onError`. -/
def callLLMStreaming (messages : List ChatMessage) (provider : String)
    (apiKey : String) (t : StreamFetch) : StreamResult :=
  if provider = "openai" then callOpenAIStreaming messages apiKey t
  else if provider = "anthropic" then callAnthropicStreaming messages apiKey t
  else if provider = "cohere" then callCohereStreaming messages apiKey t
  else
    { requests := []
      events := [.error (.error ("Unknown provider: " ++ provider))]
      outcome := none }

/-! Concrete wire material used to instantiate the general theorems:
one SSE chunk per frame, in each backend's schema. -/

/-- An OpenAI SSE chunk carrying one content delta. -/
def openaiTokenChunk (tok : String) : String :=
  "data: \x7b\"choices\":[\x7b\"delta\":\x7b\"content\":\"" ++ tok ++ "\"\x7d\x7d]\x7d"

/-- The OpenAI terminal sentinel frame. -/
def openaiDoneChunk : String := "data: [DONE]"

/-- An Anthropic SSE chunk carrying one text delta. -/
def anthropicTokenChunk (tok : String) : String :=
  "data: \x7b\"type\":\"content_block_delta\",\"delta\":\x7b\"text\":\"" ++ tok ++ "\"\x7d\x7d"

/-- The Anthropic terminal event frame. -/
def anthropicStopChunk : String := "data: \x7b\"type\":\"message_stop\"\x7d"

/-- A Cohere SSE chunk carrying one text-generation delta. -/
def cohereTokenChunk (tok : String) : String :=
  "data: \x7b\"event_type\":\"text-generation\",\"text\":\"" ++ tok ++ "\"\x7d"

/-- The Cohere terminal event frame. -/
def cohereEndChunk : String := "data: \x7b\"event_type\":\"stream-end\"\x7d"

/-! Specification vocabulary: the error taxonomy of the design document
realized by the code, and frame-level predicates defined through the
embedded adapters themselves. -/

/-- Provider identifiers for which an adapter is registered. -/
def supportedProviders : List String := ["openai", "anthropic", "cohere"]

/-- The `UnknownProviderError` of the spec taxonomy, realized by the code
as an `Error` whose message names the unknown provider. -/
def UnknownProviderError (provider : String) : JsError :=
  .error ("Unknown provider: " ++ provider)

/-- The error reported when `response.body` yields no reader. -/
def ReaderUnavailableError : JsError := .error "Failed to get response reader"

/-- Backend name as it appears in each adapter's error messages. -/
def apiName (provider : String) : String :=
  if provider = "openai" then "OpenAI"
  else if provider = "anthropic" then "Anthropic"
  else if provider = "cohere" then "Cohere"
  else ""

/-- The `ProviderHttpError` of the spec taxonomy, realized as an `Error`
whose message carries the backend name and the decimal status code. -/
def ProviderHttpError (provider : String) (status : Nat) : JsError :=
  .error ((apiName provider ++ " API error: ") ++ toString status)

/-- The frame-payload handler of the adapter registered for a provider. -/
def providerHandler (provider : String) : String → List CbEvent × Bool :=
  if provider = "openai" then openaiHandleData
  else if provider = "anthropic" then anthropicHandleData
  else if provider = "cohere" then cohereHandleData
  else fun _ => ([], false)

/-- Events and stop flag produced by one decoded chunk. -/
def chunkRun (h : String → List CbEvent × Bool) (c : String) : List CbEvent × Bool :=
  runLines h (chunkLines c)

/-- A chunk that delivers exactly one token delta `tok` and leaves the
read loop running. -/
def IsTokenChunk (h : String → List CbEvent × Bool) (c : String) (tok : String) : Prop :=
  chunkRun h c = ([CbEvent.token (Json.str tok)], false)

/-- A chunk carrying the backend's terminal marker: it fires `onComplete`
and makes the adapter stop reading. -/
def IsTerminalChunk (h : String → List CbEvent × Bool) (c : String) : Prop :=
  chunkRun h c = ([CbEvent.complete], true)

/-- A chunk that is silently skipped: no callback, loop keeps running. -/
def IsSkippedChunk (h : String → List CbEvent × Bool) (c : String) : Prop :=
  chunkRun h c = ([], false)

/-- Every event of the trace is an `onToken` invocation. -/
def eventsTokenOnly (evs : List CbEvent) : Prop :=
  ∀ ev ∈ evs, ∃ v, ev = CbEvent.token v

/-- The string fragments passed to `onToken`, in emission order. -/
def tokenTexts (evs : List CbEvent) : List String :=
  evs.filterMap (fun ev =>
    match ev with
    | CbEvent.token (Json.str s) => some s
    | _ => none)

/-- Concatenation of all `onToken` fragments in emission order - the
spec's logical completion text of a streamed response. -/
def tokenConcat (evs : List CbEvent) : String :=
  String.join (tokenTexts evs)

/-- Every frame handler returns one of three results: skip, one token,
or complete-and-stop.  This is the streaming callback state machine of
spec section 4.3 at frame granularity. -/
def HandlerShape (r : List CbEvent × Bool) : Prop :=
  r = ([], false) ∨ (∃ v, r = ([CbEvent.token v], false)) ∨ r = ([CbEvent.complete], true)

/-- A well-formed OpenAI success body whose message has no content field. -/
def textlessOpenAIBody : Json :=
  Json.obj [("choices", Json.arr [Json.obj [("message", Json.obj [])]])]

/-- A well-formed Anthropic success body whose first content block has no
text field. -/
def textlessAnthropicBody : Json :=
  Json.obj [("content", Json.arr [Json.obj []])]

/-- A well-formed Cohere success body with no text field. -/
def textlessCohereBody : Json :=
  Json.obj [("generation_id", Json.str "g")]

/-- An OpenAI success body whose content field holds the empty string. -/
def emptyTextOpenAIBody : Json :=
  Json.obj [("choices", Json.arr
    [Json.obj [("message", Json.obj [("content", Json.str "")])]])]

/-- The `|| ""` normalization that the SDK variant of the OpenAI adapter
(src/unnamed/part_002:50) applies to the same extraction path. -/
def sdkContentOr (r : Except JsError (Option Json)) : Except JsError Json :=
  match r with
  | .error e => .error e
  | .ok v => .ok (if jsTruthy v then v.getD Json.null else Json.str "")

/-- Modelled from the spec: the same logical completion text presented in
each backend's single-shot success shape - the slot that the single-shot
extraction (src/js/llm.js:31, 56, 79) reads. -/
def singleBodyOf (p : String) (text : String) : Json :=
  if p = "openai" then
    Json.obj [("choices", Json.arr
      [Json.obj [("message", Json.obj [("content", Json.str text)])]])]
  else if p = "anthropic" then
    Json.obj [("content", Json.arr [Json.obj [("text", Json.str text)]])]
  else Json.obj [("text", Json.str text)]

theorem openaiFrame_shape (parsed : Json) : HandlerShape (openaiFrame parsed) := by
  unfold HandlerShape openaiFrame
  split
  · exact Or.inl rfl
  · exact Or.inl rfl
  · split
    · exact Or.inr (Or.inl ⟨_, rfl⟩)
    · exact Or.inl rfl

theorem openaiHandleData_shape (d : String) : HandlerShape (openaiHandleData d) := by
  unfold openaiHandleData
  split
  · exact Or.inr (Or.inr rfl)
  · split
    · exact Or.inl rfl
    · exact openaiFrame_shape _

theorem anthropicFrame_shape (parsed : Json) : HandlerShape (anthropicFrame parsed) := by
  unfold HandlerShape anthropicFrame
  split
  · exact Or.inl rfl
  · split
    · split
      · exact Or.inl rfl
      · split
        · exact Or.inl rfl
        · split
          · exact Or.inr (Or.inl ⟨_, rfl⟩)
          · exact Or.inl rfl
    · split
      · exact Or.inr (Or.inr rfl)
      · exact Or.inl rfl

theorem anthropicHandleData_shape (d : String) : HandlerShape (anthropicHandleData d) := by
  unfold anthropicHandleData
  split
  · exact Or.inl rfl
  · exact anthropicFrame_shape _

theorem cohereFrame_shape (parsed : Json) : HandlerShape (cohereFrame parsed) := by
  unfold HandlerShape cohereFrame
  split
  · exact Or.inl rfl
  · split
    · split
      · exact Or.inl rfl
      · exact Or.inl rfl
      · split
        · exact Or.inr (Or.inl ⟨_, rfl⟩)
        · exact Or.inl rfl
    · split
      · exact Or.inr (Or.inr rfl)
      · exact Or.inl rfl

theorem cohereHandleData_shape (d : String) : HandlerShape (cohereHandleData d) := by
  unfold cohereHandleData
  split
  · exact Or.inl rfl
  · exact cohereFrame_shape _

theorem providerHandler_shape (p : String) (d : String) :
    HandlerShape (providerHandler p d) := by
  unfold providerHandler
  by_cases h1 : p = "openai"
  · rw [if_pos h1]; exact openaiHandleData_shape d
  · rw [if_neg h1]
    by_cases h2 : p = "anthropic"
    · rw [if_pos h2]; exact anthropicHandleData_shape d
    · rw [if_neg h2]
      by_cases h3 : p = "cohere"
      · rw [if_pos h3]; exact cohereHandleData_shape d
      · rw [if_neg h3]; exact Or.inl rfl

theorem handleLine_shape (h : String → List CbEvent × Bool)
    (hs : ∀ d, HandlerShape (h d)) (line : String) :
    HandlerShape (handleLine h line) := by
  unfold handleLine
  by_cases hl : charsStartWith "data: ".data line.data = true
  · rw [if_pos hl]; exact hs _
  · rw [if_neg hl]; exact Or.inl rfl

theorem runLines_cons (h : String → List CbEvent × Bool) (l : String) (ls : List String) :
    runLines h (l :: ls) =
      if (handleLine h l).2 then handleLine h l
      else ((handleLine h l).1 ++ (runLines h ls).1, (runLines h ls).2) := rfl

theorem runLines_cons_stop (h : String → List CbEvent × Bool) (l : String)
    (ls : List String) (evs : List CbEvent) (hl : handleLine h l = (evs, true)) :
    runLines h (l :: ls) = (evs, true) := by
  rw [runLines_cons, hl]
  rfl

theorem runLines_cons_continue (h : String → List CbEvent × Bool) (l : String)
    (ls : List String) (evs : List CbEvent) (hl : handleLine h l = (evs, false)) :
    runLines h (l :: ls) = (evs ++ (runLines h ls).1, (runLines h ls).2) := by
  rw [runLines_cons, hl]
  rfl

theorem runChunks_cons (h : String → List CbEvent × Bool) (c : String) (cs : List String) :
    runChunks h (c :: cs) =
      if (chunkRun h c).2 then chunkRun h c
      else ((chunkRun h c).1 ++ (runChunks h cs).1, (runChunks h cs).2) := rfl

theorem runChunks_cons_stop (h : String → List CbEvent × Bool) (c : String)
    (cs : List String) (evs : List CbEvent) (hc : chunkRun h c = (evs, true)) :
    runChunks h (c :: cs) = (evs, true) := by
  rw [runChunks_cons, hc]
  rfl

theorem runChunks_cons_continue (h : String → List CbEvent × Bool) (c : String)
    (cs : List String) (evs : List CbEvent) (hc : chunkRun h c = (evs, false)) :
    runChunks h (c :: cs) = (evs ++ (runChunks h cs).1, (runChunks h cs).2) := by
  rw [runChunks_cons, hc]
  rfl

theorem eventsTokenOnly_nil : eventsTokenOnly [] := by
  intro ev hev
  cases hev

theorem eventsTokenOnly_append (a b : List CbEvent)
    (ha : eventsTokenOnly a) (hb : eventsTokenOnly b) : eventsTokenOnly (a ++ b) := by
  intro ev hev
  rcases List.mem_append.mp hev with h | h
  · exact ha ev h
  · exact hb ev h

/-- The inner loop fires only `onToken` as long as it keeps running. -/
theorem runLines_continue_tokens (h : String → List CbEvent × Bool)
    (hs : ∀ d, HandlerShape (h d)) :
    ∀ ls evs, runLines h ls = (evs, false) → eventsTokenOnly evs := by
  intro ls
  induction ls with
  | nil =>
      intro evs hevs
      rw [runLines] at hevs
      injection hevs with h1 h2
      rw [← h1]
      exact eventsTokenOnly_nil
  | cons l ls ih =>
      intro evs hevs
      rcases hp : runLines h ls with ⟨evs2, st2⟩
      rcases handleLine_shape h hs l with h0 | ⟨v, hv⟩ | hc
      · rw [runLines_cons_continue h l ls [] h0, hp] at hevs
        injection hevs with h1 h2
        rw [← h1, List.nil_append]
        subst h2
        exact ih evs2 hp
      · rw [runLines_cons_continue h l ls [CbEvent.token v] hv, hp] at hevs
        injection hevs with h1 h2
        subst h2
        rw [← h1]
        exact eventsTokenOnly_append _ _
          (fun ev hev => by
            rcases List.mem_singleton.mp hev with rfl
            exact ⟨v, rfl⟩)
          (ih evs2 hp)
      · rw [runLines_cons_stop h l ls [CbEvent.complete] hc] at hevs
        injection hevs with h1 h2
        cases h2

/-- The read loop fires only `onToken` as long as no terminal marker has
been processed. -/
theorem runChunks_continue_tokens (h : String → List CbEvent × Bool)
    (hs : ∀ d, HandlerShape (h d)) :
    ∀ cs evs, runChunks h cs = (evs, false) → eventsTokenOnly evs := by
  intro cs
  induction cs with
  | nil =>
      intro evs hevs
      rw [runChunks] at hevs
      injection hevs with h1 h2
      rw [← h1]
      exact eventsTokenOnly_nil
  | cons c cs ih =>
      intro evs hevs
      rcases hr : chunkRun h c with ⟨evs1, st1⟩
      cases st1 with
      | true =>
          rw [runChunks_cons_stop h c cs evs1 hr] at hevs
          injection hevs with h1 h2
          cases h2
      | false =>
          rcases hp : runChunks h cs with ⟨evs2, st2⟩
          rw [runChunks_cons_continue h c cs evs1 hr, hp] at hevs
          injection hevs with h1 h2
          subst h2
          rw [← h1]
          exact eventsTokenOnly_append _ _
            (runLines_continue_tokens h hs (chunkLines c) evs1 hr)
            (ih evs2 hp)

/-- A sequence of token chunks followed by a terminal chunk: the loop
delivers every token in order, completes once, and never reads past the
terminal chunk. -/
theorem runChunks_tokens_terminal (h : String → List CbEvent × Bool) :
    ∀ cs toks, List.Forall₂ (IsTokenChunk h) cs toks →
      ∀ term, IsTerminalChunk h term → ∀ rest,
        runChunks h (cs ++ term :: rest)
          = (toks.map (fun tk => CbEvent.token (Json.str tk)) ++ [CbEvent.complete], true) := by
  intro cs toks hf
  induction hf with
  | nil =>
      intro term ht rest
      rw [List.nil_append, runChunks_cons_stop h term rest _ ht]
      simp
  | @cons c tok cs toks hct hf ih =>
      intro term ht rest
      rw [List.cons_append, runChunks_cons_continue h c _ _ hct, ih term ht rest]
      simp

theorem runStreamBody_of_stop (h : String → List CbEvent × Bool) (chunks : List String)
    (re : Option JsError) (evs : List CbEvent) (hc : runChunks h chunks = (evs, true)) :
    runStreamBody h chunks re = evs := by
  simp [runStreamBody, hc]

theorem runStreamBody_of_continue_none (h : String → List CbEvent × Bool)
    (chunks : List String) (evs : List CbEvent) (hc : runChunks h chunks = (evs, false)) :
    runStreamBody h chunks none = evs := by
  simp [runStreamBody, hc]

theorem runStreamBody_of_continue_some (h : String → List CbEvent × Bool)
    (chunks : List String) (evs : List CbEvent) (e : JsError)
    (hc : runChunks h chunks = (evs, false)) :
    runStreamBody h chunks (some e) = evs ++ [CbEvent.error e] := by
  simp [runStreamBody, hc]

theorem tokenTexts_map_append (toks : List String) :
    tokenTexts (toks.map (fun tk => CbEvent.token (Json.str tk)) ++ [CbEvent.complete])
      = toks := by
  induction toks with
  | nil => rfl
  | cons t ts ih =>
      simp only [List.map_cons, List.cons_append, tokenTexts, List.filterMap_cons] at *
      rw [ih]

/-- A conversation with at least one non-system message has a last
non-system message; this is the unstated precondition of the Cohere
adapters. -/
theorem nonSystem_getLast (messages : List ChatMessage)
    (hm : ∃ m ∈ messages, m.role ≠ Role.system) :
    ∃ l, (nonSystemMessages messages).getLast? = some l := by
  rcases hm with ⟨m, hmem, hrole⟩
  have hne : nonSystemMessages messages ≠ [] := by
    intro hnil
    have hmemf : m ∈ nonSystemMessages messages := by
      unfold nonSystemMessages
      rw [List.mem_filter]
      exact ⟨hmem, by simpa using hrole⟩
    rw [hnil] at hmemf
    cases hmemf
  exact Option.isSome_iff_exists.mp (List.getLast?_isSome.mpr hne)

/-- C1: for every provider id outside {openai, anthropic, cohere},
`callLLM` rejects with the `UnknownProviderError` (an `Error` whose
message names the unknown provider) and issues no request, while
`callLLMStreaming` with the same id resolves without throwing, issues no
request, and invokes `onError` exactly once with that error, never
`onToken` or `onComplete`. -/
theorem C1_unknown_provider (p : String) (hp : p ∉ supportedProviders)
    (messages : List ChatMessage) (apiKey : String)
    (ts : SingleFetch) (tt : StreamFetch) :
    callLLM messages p apiKey ts
      = { requests := [], result := .error (UnknownProviderError p) }
    ∧ callLLMStreaming messages p apiKey tt
      = { requests := []
          events := [CbEvent.error (UnknownProviderError p)]
          outcome := none } := by
  have h1 : ¬(p = "openai") := fun h => hp (by rw [h]; simp [supportedProviders])
  have h2 : ¬(p = "anthropic") := fun h => hp (by rw [h]; simp [supportedProviders])
  have h3 : ¬(p = "cohere") := fun h => hp (by rw [h]; simp [supportedProviders])
  constructor
  · unfold callLLM
    rw [if_neg h1, if_neg h2, if_neg h3]
    rfl
  · unfold callLLMStreaming
    rw [if_neg h1, if_neg h2, if_neg h3]
    rfl

theorem C1_unknown_provider_witness :
    callLLM [] "madeup" ""
        { reject := none, ok := true, status := 200, body := Json.null }
      = { requests := [], result := .error (UnknownProviderError "madeup") }
    ∧ callLLMStreaming [] "madeup" ""
        { reject := none, ok := true, status := 200, hasReader := true
          chunks := [], readError := none }
      = { requests := []
          events := [CbEvent.error (UnknownProviderError "madeup")]
          outcome := none } :=
  C1_unknown_provider "madeup" (by decide) [] "" _ _

/-- C2: for every supported provider, a non-success HTTP status makes the
single-shot call fail with the `ProviderHttpError` carrying the numeric
status, with exactly one request issued and no retry, while the streaming
call fires `onError` exactly once with that error, zero `onToken` and
zero `onComplete`, resolves, and also issues exactly one request.  The
conversation is assumed to contain a non-system message, the Cohere
adapters' unstated precondition (claim C10). -/
theorem C2_http_error (p : String) (hp : p ∈ supportedProviders)
    (messages : List ChatMessage) (apiKey : String)
    (hm : ∃ m ∈ messages, m.role ≠ Role.system)
    (ts : SingleFetch) (hr : ts.reject = none) (hok : ts.ok = false)
    (tt : StreamFetch) (hr2 : tt.reject = none) (hok2 : tt.ok = false) :
    (callLLM messages p apiKey ts).result = .error (ProviderHttpError p ts.status)
    ∧ (callLLM messages p apiKey ts).requests.length = 1
    ∧ (callLLMStreaming messages p apiKey tt).events
        = [CbEvent.error (ProviderHttpError p tt.status)]
    ∧ (callLLMStreaming messages p apiKey tt).outcome = none
    ∧ (callLLMStreaming messages p apiKey tt).requests.length = 1 := by
  obtain ⟨l, hl⟩ := nonSystem_getLast messages hm
  simp only [supportedProviders, List.mem_cons, List.not_mem_nil, or_false] at hp
  rcases hp with rfl | rfl | rfl
  · refine ⟨?_, ?_, ?_, ?_, ?_⟩ <;>
      simp [callLLM, callLLMStreaming, callOpenAI, callOpenAIStreaming,
        hr, hok, hr2, hok2, ProviderHttpError, apiName]
  · refine ⟨?_, ?_, ?_, ?_, ?_⟩ <;>
      simp [callLLM, callLLMStreaming, callAnthropic, callAnthropicStreaming,
        hr, hok, hr2, hok2, ProviderHttpError, apiName]
  · refine ⟨?_, ?_, ?_, ?_, ?_⟩ <;>
      simp [callLLM, callLLMStreaming, callCohere, callCohereStreaming, hl,
        hr, hok, hr2, hok2, ProviderHttpError, apiName]

theorem C2_http_error_witness :
    (callLLM [⟨Role.user, "hi"⟩] "openai" "key"
        { reject := none, ok := false, status := 500, body := Json.null }).result
      = .error (ProviderHttpError "openai" 500)
    ∧ (callLLM [⟨Role.user, "hi"⟩] "openai" "key"
        { reject := none, ok := false, status := 500, body := Json.null }).requests.length = 1
    ∧ (callLLMStreaming [⟨Role.user, "hi"⟩] "openai" "key"
        { reject := none, ok := false, status := 401, hasReader := true
          chunks := [], readError := none }).events
      = [CbEvent.error (ProviderHttpError "openai" 401)]
    ∧ (callLLMStreaming [⟨Role.user, "hi"⟩] "openai" "key"
        { reject := none, ok := false, status := 401, hasReader := true
          chunks := [], readError := none }).outcome = none
    ∧ (callLLMStreaming [⟨Role.user, "hi"⟩] "openai" "key"
        { reject := none, ok := false, status := 401, hasReader := true
          chunks := [], readError := none }).requests.length = 1 :=
  C2_http_error "openai" (by decide) [⟨Role.user, "hi"⟩] "key"
    ⟨⟨Role.user, "hi"⟩, by decide⟩ _ rfl rfl _ rfl rfl

/-- C3 counterexample: a pre-response network failure (the `fetch`
promise rejecting, which is outside every `try` in src/js/llm.js:83) on a
supported provider produces zero callback invocations and rejects
`callLLMStreaming` itself - contradicting the claim that every
transport-level failure is delivered through exactly one `onError` and
that the streaming entry point never throws or rejects. -/
theorem C3_counterexample :
    (callLLMStreaming [⟨Role.user, "hi"⟩] "openai" "key"
        { reject := some (JsError.error "network failure"), ok := true, status := 200
          hasReader := true, chunks := [], readError := none }).events = []
    ∧ (callLLMStreaming [⟨Role.user, "hi"⟩] "openai" "key"
        { reject := some (JsError.error "network failure"), ok := true, status := 200
          hasReader := true, chunks := [], readError := none }).outcome
      = some (JsError.error "network failure") :=
  ⟨rfl, rfl⟩

/-- C3 (amended): for every supported provider, every transport-level
failure occurring once the initial `fetch` has resolved - non-OK initial
response, missing response body reader, mid-stream read failure - is
delivered by invoking `onError` exactly once, as the last event, with no
further callback invocations, and in those cases `callLLMStreaming`
resolves without rejecting; a rejected `fetch` (pre-response network
failure), however, escapes as a rejection of `callLLMStreaming` with zero
callback invocations.  The conversation is assumed to contain a
non-system message (claim C10's precondition for the Cohere adapter). -/
theorem C3_transport_errors (p : String) (hp : p ∈ supportedProviders)
    (messages : List ChatMessage) (apiKey : String)
    (hm : ∃ m ∈ messages, m.role ≠ Role.system) (t : StreamFetch) :
    (t.reject = none → t.ok = false →
      (callLLMStreaming messages p apiKey t).events
          = [CbEvent.error (ProviderHttpError p t.status)]
        ∧ (callLLMStreaming messages p apiKey t).outcome = none)
    ∧ (t.reject = none → t.ok = true → t.hasReader = false →
        (callLLMStreaming messages p apiKey t).events
            = [CbEvent.error ReaderUnavailableError]
          ∧ (callLLMStreaming messages p apiKey t).outcome = none)
    ∧ (∀ e evs, t.reject = none → t.ok = true → t.hasReader = true →
        t.readError = some e →
        runChunks (providerHandler p) t.chunks = (evs, false) →
        (callLLMStreaming messages p apiKey t).events = evs ++ [CbEvent.error e]
          ∧ eventsTokenOnly evs
          ∧ (callLLMStreaming messages p apiKey t).outcome = none)
    ∧ (∀ e, t.reject = some e →
        (callLLMStreaming messages p apiKey t).events = []
          ∧ (callLLMStreaming messages p apiKey t).outcome = some e) := by
  obtain ⟨l, hl⟩ := nonSystem_getLast messages hm
  simp only [supportedProviders, List.mem_cons, List.not_mem_nil, or_false] at hp
  rcases hp with rfl | rfl | rfl
  · refine ⟨?_, ?_, ?_, ?_⟩
    · intro h0 h1
      constructor <;>
        simp [callLLMStreaming, callOpenAIStreaming, h0, h1, ProviderHttpError, apiName]
    · intro h0 h1 h2
      constructor <;>
        simp [callLLMStreaming, callOpenAIStreaming, h0, h1, h2, ReaderUnavailableError]
    · intro e evs h0 h1 h2 h3 hrun
      have hrun2 : runChunks openaiHandleData t.chunks = (evs, false) := by
        simpa [providerHandler] using hrun
      refine ⟨?_, ?_, ?_⟩
      · simp [callLLMStreaming, callOpenAIStreaming, h0, h1, h2, h3,
          runStreamBody_of_continue_some _ _ _ _ hrun2]
      · exact runChunks_continue_tokens _ openaiHandleData_shape _ _ hrun2
      · simp [callLLMStreaming, callOpenAIStreaming, h0, h1, h2]
    · intro e h0
      constructor <;> simp [callLLMStreaming, callOpenAIStreaming, h0]
  · refine ⟨?_, ?_, ?_, ?_⟩
    · intro h0 h1
      constructor <;>
        simp [callLLMStreaming, callAnthropicStreaming, h0, h1, ProviderHttpError, apiName]
    · intro h0 h1 h2
      constructor <;>
        simp [callLLMStreaming, callAnthropicStreaming, h0, h1, h2, ReaderUnavailableError]
    · intro e evs h0 h1 h2 h3 hrun
      have hrun2 : runChunks anthropicHandleData t.chunks = (evs, false) := by
        simpa [providerHandler] using hrun
      refine ⟨?_, ?_, ?_⟩
      · simp [callLLMStreaming, callAnthropicStreaming, h0, h1, h2, h3,
          runStreamBody_of_continue_some _ _ _ _ hrun2]
      · exact runChunks_continue_tokens _ anthropicHandleData_shape _ _ hrun2
      · simp [callLLMStreaming, callAnthropicStreaming, h0, h1, h2]
    · intro e h0
      constructor <;> simp [callLLMStreaming, callAnthropicStreaming, h0]
  · refine ⟨?_, ?_, ?_, ?_⟩
    · intro h0 h1
      constructor <;>
        simp [callLLMStreaming, callCohereStreaming, hl, h0, h1, ProviderHttpError, apiName]
    · intro h0 h1 h2
      constructor <;>
        simp [callLLMStreaming, callCohereStreaming, hl, h0, h1, h2, ReaderUnavailableError]
    · intro e evs h0 h1 h2 h3 hrun
      have hrun2 : runChunks cohereHandleData t.chunks = (evs, false) := by
        simpa [providerHandler] using hrun
      refine ⟨?_, ?_, ?_⟩
      · simp [callLLMStreaming, callCohereStreaming, hl, h0, h1, h2, h3,
          runStreamBody_of_continue_some _ _ _ _ hrun2]
      · exact runChunks_continue_tokens _ cohereHandleData_shape _ _ hrun2
      · simp [callLLMStreaming, callCohereStreaming, hl, h0, h1, h2]
    · intro e h0
      constructor <;> simp [callLLMStreaming, callCohereStreaming, hl, h0]

theorem C3_transport_errors_witness :
    (callLLMStreaming [⟨Role.user, "hi"⟩] "anthropic" "key"
        { reject := none, ok := true, status := 200, hasReader := true
          chunks := [anthropicTokenChunk "A"]
          readError := some (JsError.error "read reset") }).events
      = [CbEvent.token (Json.str "A"), CbEvent.error (JsError.error "read reset")]
    ∧ eventsTokenOnly [CbEvent.token (Json.str "A")]
    ∧ (callLLMStreaming [⟨Role.user, "hi"⟩] "anthropic" "key"
        { reject := none, ok := true, status := 200, hasReader := true
          chunks := [anthropicTokenChunk "A"]
          readError := some (JsError.error "read reset") }).outcome = none :=
  (C3_transport_errors "anthropic" (by decide) [⟨Role.user, "hi"⟩] "key"
      ⟨⟨Role.user, "hi"⟩, by decide⟩ _).2.2.1
    (JsError.error "read reset") [CbEvent.token (Json.str "A")] rfl rfl rfl rfl rfl

/-- On a successful transport, every supported provider's streaming call
resolves and its callback trace is the run of that provider's frame
handler over the chunks. -/
theorem streamEvents_supported (p : String) (hp : p ∈ supportedProviders)
    (messages : List ChatMessage) (apiKey : String)
    (hm : ∃ m ∈ messages, m.role ≠ Role.system) (t : StreamFetch)
    (h0 : t.reject = none) (h1 : t.ok = true) (h2 : t.hasReader = true) :
    (callLLMStreaming messages p apiKey t).events
        = runStreamBody (providerHandler p) t.chunks t.readError
      ∧ (callLLMStreaming messages p apiKey t).outcome = none := by
  obtain ⟨l, hl⟩ := nonSystem_getLast messages hm
  simp only [supportedProviders, List.mem_cons, List.not_mem_nil, or_false] at hp
  rcases hp with rfl | rfl | rfl
  · constructor <;>
      simp [callLLMStreaming, callOpenAIStreaming, providerHandler, h0, h1, h2]
  · constructor <;>
      simp [callLLMStreaming, callAnthropicStreaming, providerHandler, h0, h1, h2]
  · constructor <;>
      simp [callLLMStreaming, callCohereStreaming, providerHandler, hl, h0, h1, h2]

/-- A token chunk, a skipped chunk, a token chunk, then a terminal chunk:
both tokens are delivered, then completion, and nothing further. -/
theorem runChunks_scenario (h : String → List CbEvent × Bool)
    (c1 bad c2 term : String) (tok1 tok2 : String) (rest : List String)
    (h1 : IsTokenChunk h c1 tok1) (hb : IsSkippedChunk h bad)
    (h2 : IsTokenChunk h c2 tok2) (ht : IsTerminalChunk h term) :
    runChunks h (c1 :: bad :: c2 :: term :: rest)
      = ([CbEvent.token (Json.str tok1), CbEvent.token (Json.str tok2),
          CbEvent.complete], true) := by
  rw [runChunks_cons_continue h c1 _ _ h1, runChunks_cons_continue h bad _ _ hb,
    runChunks_cons_continue h c2 _ _ h2, runChunks_cons_stop h term _ _ ht]
  rfl

/-- C4: for every streaming adapter, a frame whose payload fails to parse
as JSON is silently skipped - no callback fires and the read loop keeps
running - so it does not abort the stream.  (For the OpenAI adapter the
`[DONE]` sentinel is compared before JSON parsing, so that payload, the
terminal marker itself rather than a data frame, is excluded.)  In
particular, a stream with one syntactically invalid JSON line between two
valid token frames followed by a terminal marker still delivers both
tokens and reaches `onComplete`. -/
theorem C4_malformed_frame_skipped (p : String) (hp : p ∈ supportedProviders)
    (d : String) (hparse : jsonParse d = none) (hdone : ¬(d = "[DONE]")) :
    providerHandler p d = ([], false)
    ∧ ∀ (messages : List ChatMessage) (apiKey : String),
        (∃ m ∈ messages, m.role ≠ Role.system) →
        ∀ (c1 bad c2 term : String) (tok1 tok2 : String) (rest : List String)
          (re : Option JsError),
          IsTokenChunk (providerHandler p) c1 tok1 →
          IsSkippedChunk (providerHandler p) bad →
          IsTokenChunk (providerHandler p) c2 tok2 →
          IsTerminalChunk (providerHandler p) term →
          (callLLMStreaming messages p apiKey
              { reject := none, ok := true, status := 200, hasReader := true
                chunks := c1 :: bad :: c2 :: term :: rest, readError := re }).events
            = [CbEvent.token (Json.str tok1), CbEvent.token (Json.str tok2),
               CbEvent.complete] := by
  constructor
  · have hp2 := hp
    simp only [supportedProviders, List.mem_cons, List.not_mem_nil, or_false] at hp2
    rcases hp2 with rfl | rfl | rfl
    · simp [providerHandler, openaiHandleData, hparse, hdone]
    · simp [providerHandler, anthropicHandleData, hparse]
    · simp [providerHandler, cohereHandleData, hparse]
  · intro messages apiKey hm c1 bad c2 term tok1 tok2 rest re h1 hb h2 ht
    have hse := streamEvents_supported p hp messages apiKey hm
      { reject := none, ok := true, status := 200, hasReader := true
        chunks := c1 :: bad :: c2 :: term :: rest, readError := re } rfl rfl rfl
    rw [hse.1, runStreamBody_of_stop _ _ _ _
      (runChunks_scenario _ c1 bad c2 term tok1 tok2 rest h1 hb h2 ht)]

theorem C4_malformed_frame_skipped_witness :
    providerHandler "openai" "\x7bnot json" = ([], false)
    ∧ (callLLMStreaming [⟨Role.user, "hi"⟩] "openai" "key"
        { reject := none, ok := true, status := 200, hasReader := true
          chunks := [openaiTokenChunk "Hel", "data: \x7bnot json",
            openaiTokenChunk "lo", openaiDoneChunk]
          readError := none }).events
      = [CbEvent.token (Json.str "Hel"), CbEvent.token (Json.str "lo"),
         CbEvent.complete] := by
  have h := C4_malformed_frame_skipped "openai" (by decide) "\x7bnot json" rfl (by decide)
  exact ⟨h.1, h.2 [⟨Role.user, "hi"⟩] "key" ⟨⟨Role.user, "hi"⟩, by decide⟩
    (openaiTokenChunk "Hel") "data: \x7bnot json" (openaiTokenChunk "lo") openaiDoneChunk
    "Hel" "lo" [] none rfl rfl rfl rfl⟩

/-- C5: for every supported provider and every chunk sequence of n token
frames followed by that backend's terminal marker, the streaming call
fires `onToken` exactly n times in transport arrival order, then exactly
one `onComplete`, zero `onError` invocations, and resolves; the trace is
independent of whatever frames sit behind the terminal marker, which are
never processed. -/
theorem C5_stream_ordering (p : String) (hp : p ∈ supportedProviders)
    (messages : List ChatMessage) (apiKey : String)
    (hm : ∃ m ∈ messages, m.role ≠ Role.system)
    (toks : List String) (cs : List String)
    (hf : List.Forall₂ (IsTokenChunk (providerHandler p)) cs toks)
    (term : String) (ht : IsTerminalChunk (providerHandler p) term)
    (rest : List String) (re : Option JsError) :
    (callLLMStreaming messages p apiKey
        { reject := none, ok := true, status := 200, hasReader := true
          chunks := cs ++ term :: rest, readError := re }).events
      = toks.map (fun tk => CbEvent.token (Json.str tk)) ++ [CbEvent.complete]
    ∧ (callLLMStreaming messages p apiKey
        { reject := none, ok := true, status := 200, hasReader := true
          chunks := cs ++ term :: rest, readError := re }).outcome = none := by
  have hse := streamEvents_supported p hp messages apiKey hm
    { reject := none, ok := true, status := 200, hasReader := true
      chunks := cs ++ term :: rest, readError := re } rfl rfl rfl
  refine ⟨?_, hse.2⟩
  rw [hse.1]
  exact runStreamBody_of_stop _ _ _ _
    (runChunks_tokens_terminal _ cs toks hf term ht rest)

theorem C5_stream_ordering_witness :
    (callLLMStreaming [⟨Role.user, "hi"⟩] "openai" "key"
        { reject := none, ok := true, status := 200, hasReader := true
          chunks := [openaiTokenChunk "Hel", openaiTokenChunk "lo, ",
            openaiTokenChunk "world", openaiDoneChunk, openaiTokenChunk "late"]
          readError := none }).events
      = [CbEvent.token (Json.str "Hel"), CbEvent.token (Json.str "lo, "),
         CbEvent.token (Json.str "world"), CbEvent.complete]
    ∧ (callLLMStreaming [⟨Role.user, "hi"⟩] "openai" "key"
        { reject := none, ok := true, status := 200, hasReader := true
          chunks := [openaiTokenChunk "Hel", openaiTokenChunk "lo, ",
            openaiTokenChunk "world", openaiDoneChunk, openaiTokenChunk "late"]
          readError := none }).outcome = none :=
  C5_stream_ordering "openai" (by decide) [⟨Role.user, "hi"⟩] "key"
    ⟨⟨Role.user, "hi"⟩, by decide⟩ ["Hel", "lo, ", "world"]
    [openaiTokenChunk "Hel", openaiTokenChunk "lo, ", openaiTokenChunk "world"]
    (List.Forall₂.cons rfl (List.Forall₂.cons rfl (List.Forall₂.cons rfl List.Forall₂.nil)))
    openaiDoneChunk rfl [openaiTokenChunk "late"] none

/-- When the first system message of the conversation is `m`, `find?`
returns it. -/
theorem find?_system_first (pre : List ChatMessage) (m : ChatMessage)
    (post : List ChatMessage) (hm : m.role = Role.system) :
    (∀ x ∈ pre, x.role ≠ Role.system) →
    (pre ++ m :: post).find? (fun x => x.role = Role.system) = some m := by
  induction pre with
  | nil =>
      intro _
      rw [List.nil_append]
      exact List.find?_cons_of_pos _ (by simp [hm])
  | cons a pre ih =>
      intro hpre
      rw [List.cons_append, List.find?_cons_of_neg]
      · exact ih (fun x hx => hpre x (List.mem_cons_of_mem a hx))
      · simp [hpre a (List.mem_cons_self a pre)]

/-- The preamble slot holds the content of the first system message. -/
theorem systemSlot_first (pre : List ChatMessage) (m : ChatMessage)
    (post : List ChatMessage) (hm : m.role = Role.system)
    (hpre : ∀ x ∈ pre, x.role ≠ Role.system) :
    systemSlot (pre ++ m :: post) = m.content := by
  unfold systemSlot
  rw [find?_system_first pre m post hm hpre]

/-- With no system message the preamble slot is the empty string. -/
theorem systemSlot_of_none (messages : List ChatMessage)
    (h : ∀ m ∈ messages, m.role ≠ Role.system) : systemSlot messages = "" := by
  unfold systemSlot
  rw [List.find?_eq_none.mpr (by intro x hx; simpa using h x hx)]

/-- The Anthropic adapter issues exactly one request, and this is its
body. -/
theorem callAnthropic_requests (messages : List ChatMessage) (apiKey : String)
    (t : SingleFetch) :
    (callAnthropic messages apiKey t).requests
      = [Request.anthropic
          { apiKey := apiKey, model := ANTHROPIC_MODEL
            messages := anthropicMessages messages
            system := systemSlot messages, stream := false }] := by
  unfold callAnthropic
  rcases t with ⟨reject, ok, status, body⟩
  rcases reject with _ | e
  · dsimp only
    split <;> rfl
  · rfl

/-- The OpenAI adapter issues exactly one request carrying the message
sequence verbatim. -/
theorem callOpenAI_requests (messages : List ChatMessage) (apiKey : String)
    (t : SingleFetch) :
    (callOpenAI messages apiKey t).requests
      = [Request.openai
          { apiKey := apiKey, model := OPENAI_MODEL
            messages := messages, stream := false }] := by
  unfold callOpenAI
  rcases t with ⟨reject, ok, status, body⟩
  rcases reject with _ | e
  · dsimp only
    split <;> rfl
  · rfl

/-- The Cohere adapter, under its precondition, issues exactly one
request whose only conversational payload is the last non-system
message's content. -/
theorem callCohere_requests (messages : List ChatMessage) (apiKey : String)
    (t : SingleFetch) (last : ChatMessage)
    (hl : (nonSystemMessages messages).getLast? = some last) :
    (callCohere messages apiKey t).requests
      = [Request.cohere
          { apiKey := apiKey, model := COHERE_MODEL
            message := last.content
            preamble := systemSlot messages, stream := false }] := by
  unfold callCohere
  simp only [hl]
  rcases t with ⟨reject, ok, status, body⟩
  rcases reject with _ | e
  · dsimp only
    split <;> rfl
  · rfl

/-- C6: the Anthropic adapter extracts the first system message into the
request's `system` slot (empty when there is none), and maps the
remaining messages in order, assistant-authored entries keeping the
assistant role and everything else becoming user-authored; the Cohere
adapter, whose request format has no history, sends only the content of
the last non-system message, discarding all earlier turns; the OpenAI
adapter passes the sequence verbatim, so the system message occupies the
system-role slot of that wire format in place and order is preserved. -/
theorem C6_message_mapping (messages : List ChatMessage) (apiKey : String)
    (t : SingleFetch) (hm : ∃ m ∈ messages, m.role ≠ Role.system) :
    (∃ req, (callAnthropic messages apiKey t).requests = [Request.anthropic req]
      ∧ req.system = systemSlot messages
      ∧ ((∀ m ∈ messages, m.role ≠ Role.system) → req.system = "")
      ∧ (∀ pre sys post, messages = pre ++ sys :: post → sys.role = Role.system →
          (∀ x ∈ pre, x.role ≠ Role.system) → req.system = sys.content)
      ∧ req.messages.map AnthropicMessage.content
          = (nonSystemMessages messages).map ChatMessage.content
      ∧ req.messages.length = (nonSystemMessages messages).length
      ∧ (∀ (i : Nat) (hi : i < req.messages.length)
            (hj : i < (nonSystemMessages messages).length),
          ((req.messages.get ⟨i, hi⟩).role = OutRole.assistant
            ↔ ((nonSystemMessages messages).get ⟨i, hj⟩).role = Role.assistant)))
    ∧ (∃ last req, (nonSystemMessages messages).getLast? = some last
        ∧ (callCohere messages apiKey t).requests = [Request.cohere req]
        ∧ req.message = last.content
        ∧ req.preamble = systemSlot messages)
    ∧ (∃ req, (callOpenAI messages apiKey t).requests = [Request.openai req]
        ∧ req.messages = messages) := by
  obtain ⟨l, hl⟩ := nonSystem_getLast messages hm
  refine ⟨⟨_, callAnthropic_requests messages apiKey t, rfl, ?_, ?_, ?_, ?_, ?_⟩,
    ⟨l, _, hl, callCohere_requests messages apiKey t l hl, rfl, rfl⟩,
    ⟨_, callOpenAI_requests messages apiKey t, rfl⟩⟩
  · intro h
    exact systemSlot_of_none messages h
  · intro pre sys post heq hsys hpre
    rw [heq]
    exact systemSlot_first pre sys post hsys hpre
  · simp [anthropicMessages, List.map_map]
  · simp [anthropicMessages]
  · intro i hi hj
    have hget : (anthropicMessages messages).get
        ⟨i, by simpa [anthropicMessages] using hj⟩
        = { role := if ((nonSystemMessages messages).get ⟨i, hj⟩).role = Role.assistant
              then OutRole.assistant else OutRole.user
            content := ((nonSystemMessages messages).get ⟨i, hj⟩).content } := by
      simp [anthropicMessages, List.get_map]
    rw [show ((anthropicMessages messages).get ⟨i, hi⟩ : AnthropicMessage)
        = (anthropicMessages messages).get ⟨i, by simpa [anthropicMessages] using hj⟩
      from rfl, hget]
    by_cases hr : ((nonSystemMessages messages).get ⟨i, hj⟩).role = Role.assistant
    · simp [hr]
    · simp [hr]

theorem C6_message_mapping_witness :
    (∃ req, (callAnthropic
        [⟨Role.system, "S"⟩, ⟨Role.user, "U1"⟩, ⟨Role.assistant, "A1"⟩, ⟨Role.user, "U2"⟩]
        "key" { reject := none, ok := true, status := 200, body := Json.null }).requests
          = [Request.anthropic req]
      ∧ req.system = systemSlot
          [⟨Role.system, "S"⟩, ⟨Role.user, "U1"⟩, ⟨Role.assistant, "A1"⟩, ⟨Role.user, "U2"⟩]
      ∧ ((∀ m ∈ ([⟨Role.system, "S"⟩, ⟨Role.user, "U1"⟩, ⟨Role.assistant, "A1"⟩,
            ⟨Role.user, "U2"⟩] : List ChatMessage), m.role ≠ Role.system) → req.system = "")
      ∧ (∀ pre sys post,
          ([⟨Role.system, "S"⟩, ⟨Role.user, "U1"⟩, ⟨Role.assistant, "A1"⟩,
            ⟨Role.user, "U2"⟩] : List ChatMessage) = pre ++ sys :: post →
          sys.role = Role.system →
          (∀ x ∈ pre, x.role ≠ Role.system) → req.system = sys.content)
      ∧ req.messages.map AnthropicMessage.content
          = (nonSystemMessages
              [⟨Role.system, "S"⟩, ⟨Role.user, "U1"⟩, ⟨Role.assistant, "A1"⟩,
               ⟨Role.user, "U2"⟩]).map ChatMessage.content
      ∧ req.messages.length = (nonSystemMessages
          [⟨Role.system, "S"⟩, ⟨Role.user, "U1"⟩, ⟨Role.assistant, "A1"⟩,
           ⟨Role.user, "U2"⟩]).length
      ∧ (∀ (i : Nat) (hi : i < req.messages.length)
            (hj : i < (nonSystemMessages
              [⟨Role.system, "S"⟩, ⟨Role.user, "U1"⟩, ⟨Role.assistant, "A1"⟩,
               ⟨Role.user, "U2"⟩]).length),
          ((req.messages.get ⟨i, hi⟩).role = OutRole.assistant
            ↔ ((nonSystemMessages
              [⟨Role.system, "S"⟩, ⟨Role.user, "U1"⟩, ⟨Role.assistant, "A1"⟩,
               ⟨Role.user, "U2"⟩]).get ⟨i, hj⟩).role = Role.assistant)))
    ∧ (∃ last req, (nonSystemMessages
          [⟨Role.system, "S"⟩, ⟨Role.user, "U1"⟩, ⟨Role.assistant, "A1"⟩,
           ⟨Role.user, "U2"⟩]).getLast? = some last
        ∧ (callCohere
            [⟨Role.system, "S"⟩, ⟨Role.user, "U1"⟩, ⟨Role.assistant, "A1"⟩, ⟨Role.user, "U2"⟩]
            "key" { reject := none, ok := true, status := 200, body := Json.null }).requests
          = [Request.cohere req]
        ∧ req.message = last.content
        ∧ req.preamble = systemSlot
            [⟨Role.system, "S"⟩, ⟨Role.user, "U1"⟩, ⟨Role.assistant, "A1"⟩, ⟨Role.user, "U2"⟩])
    ∧ (∃ req, (callOpenAI
          [⟨Role.system, "S"⟩, ⟨Role.user, "U1"⟩, ⟨Role.assistant, "A1"⟩, ⟨Role.user, "U2"⟩]
          "key" { reject := none, ok := true, status := 200, body := Json.null }).requests
        = [Request.openai req]
      ∧ req.messages
          = [⟨Role.system, "S"⟩, ⟨Role.user, "U1"⟩, ⟨Role.assistant, "A1"⟩, ⟨Role.user, "U2"⟩]) :=
  C6_message_mapping
    [⟨Role.system, "S"⟩, ⟨Role.user, "U1"⟩, ⟨Role.assistant, "A1"⟩, ⟨Role.user, "U2"⟩]
    "key" { reject := none, ok := true, status := 200, body := Json.null }
    ⟨⟨Role.user, "U1"⟩, by decide⟩

/-- C7 counterexample: on a well-formed success response whose `content`
field is absent, the fetch-based OpenAI adapter resolves with the
JavaScript value `undefined`, not with the empty string - the extraction
at src/js/llm.js:31 has no `|| ""`. -/
theorem C7_counterexample :
    (callLLM [⟨Role.user, "hi"⟩] "openai" "key"
        { reject := none, ok := true, status := 200, body := textlessOpenAIBody }).result
      = Except.ok none
    ∧ ¬((callLLM [⟨Role.user, "hi"⟩] "openai" "key"
        { reject := none, ok := true, status := 200, body := textlessOpenAIBody }).result
      = Except.ok (some (Json.str ""))) := by
  refine ⟨rfl, ?_⟩
  intro h
  rw [show (callLLM [⟨Role.user, "hi"⟩] "openai" "key"
      { reject := none, ok := true, status := 200, body := textlessOpenAIBody }).result
    = Except.ok none from rfl] at h
  exact Option.noConfusion (Except.ok.inj h)

/-- C7 (amended): in the fetch-based adapters of src/js/llm.js a
well-formed but textless success response resolves with the JavaScript
`undefined` value - no error is raised, but the result is not the empty
string either; when the text field is present and holds `""`, the empty
string itself is returned.  The normalization of absent text to `""`
exists only in the SDK variant of the adapter (src/unnamed/part_002). -/
theorem C7_textless_undefined (messages : List ChatMessage) (apiKey : String)
    (hm : ∃ m ∈ messages, m.role ≠ Role.system) :
    (callLLM messages "openai" apiKey
        { reject := none, ok := true, status := 200, body := textlessOpenAIBody }).result
      = Except.ok none
    ∧ (callLLM messages "anthropic" apiKey
        { reject := none, ok := true, status := 200, body := textlessAnthropicBody }).result
      = Except.ok none
    ∧ (callLLM messages "cohere" apiKey
        { reject := none, ok := true, status := 200, body := textlessCohereBody }).result
      = Except.ok none
    ∧ (callLLM messages "openai" apiKey
        { reject := none, ok := true, status := 200, body := emptyTextOpenAIBody }).result
      = Except.ok (some (Json.str ""))
    ∧ sdkContentOr (openaiExtract textlessOpenAIBody) = Except.ok (Json.str "") := by
  obtain ⟨l, hl⟩ := nonSystem_getLast messages hm
  refine ⟨rfl, rfl, ?_, rfl, rfl⟩
  simp [callLLM, callCohere, hl, cohereExtract, textlessCohereBody, jsGet, lookupField]

theorem C7_textless_undefined_witness :
    (callLLM [⟨Role.user, "hi"⟩] "openai" "key"
        { reject := none, ok := true, status := 200, body := textlessOpenAIBody }).result
      = Except.ok none
    ∧ (callLLM [⟨Role.user, "hi"⟩] "anthropic" "key"
        { reject := none, ok := true, status := 200, body := textlessAnthropicBody }).result
      = Except.ok none
    ∧ (callLLM [⟨Role.user, "hi"⟩] "cohere" "key"
        { reject := none, ok := true, status := 200, body := textlessCohereBody }).result
      = Except.ok none
    ∧ (callLLM [⟨Role.user, "hi"⟩] "openai" "key"
        { reject := none, ok := true, status := 200, body := emptyTextOpenAIBody }).result
      = Except.ok (some (Json.str ""))
    ∧ sdkContentOr (openaiExtract textlessOpenAIBody) = Except.ok (Json.str "") :=
  C7_textless_undefined [⟨Role.user, "hi"⟩] "key" ⟨⟨Role.user, "hi"⟩, by decide⟩

/-- C8: when the backend returns the same logical completion in
single-shot form and in streamed form (token chunks whose fragments
concatenate to the single-shot text, then a terminal marker), the
concatenation of all fragments passed to `onToken` in emission order by
`callLLMStreaming` equals the text returned by `callLLM`. -/
theorem C8_stream_equals_single (p : String) (hp : p ∈ supportedProviders)
    (messages : List ChatMessage) (apiKey : String)
    (hm : ∃ m ∈ messages, m.role ≠ Role.system)
    (toks : List String) (cs : List String)
    (hf : List.Forall₂ (IsTokenChunk (providerHandler p)) cs toks)
    (term : String) (ht : IsTerminalChunk (providerHandler p) term)
    (rest : List String) (re : Option JsError) :
    (callLLM messages p apiKey
        { reject := none, ok := true, status := 200
          body := singleBodyOf p (String.join toks) }).result
      = Except.ok (some (Json.str (String.join toks)))
    ∧ tokenConcat ((callLLMStreaming messages p apiKey
        { reject := none, ok := true, status := 200, hasReader := true
          chunks := cs ++ term :: rest, readError := re }).events)
      = String.join toks := by
  obtain ⟨l, hl⟩ := nonSystem_getLast messages hm
  constructor
  · have hp2 := hp
    simp only [supportedProviders, List.mem_cons, List.not_mem_nil, or_false] at hp2
    rcases hp2 with rfl | rfl | rfl
    · rfl
    · rfl
    · simp [callLLM, callCohere, hl, cohereExtract, singleBodyOf, jsGet, lookupField]
  · have hse := streamEvents_supported p hp messages apiKey hm
      { reject := none, ok := true, status := 200, hasReader := true
        chunks := cs ++ term :: rest, readError := re } rfl rfl rfl
    rw [hse.1, runStreamBody_of_stop _ _ _ _
      (runChunks_tokens_terminal _ cs toks hf term ht rest),
      tokenConcat, tokenTexts_map_append]

theorem C8_stream_equals_single_witness :
    (callLLM [⟨Role.user, "hi"⟩] "anthropic" "key"
        { reject := none, ok := true, status := 200
          body := singleBodyOf "anthropic" (String.join ["Hel", "lo"]) }).result
      = Except.ok (some (Json.str (String.join ["Hel", "lo"])))
    ∧ tokenConcat ((callLLMStreaming [⟨Role.user, "hi"⟩] "anthropic" "key"
        { reject := none, ok := true, status := 200, hasReader := true
          chunks := [anthropicTokenChunk "Hel", anthropicTokenChunk "lo"]
            ++ anthropicStopChunk :: [], readError := none }).events)
      = String.join ["Hel", "lo"] :=
  C8_stream_equals_single "anthropic" (by decide) [⟨Role.user, "hi"⟩] "key"
    ⟨⟨Role.user, "hi"⟩, by decide⟩ ["Hel", "lo"]
    [anthropicTokenChunk "Hel", anthropicTokenChunk "lo"]
    (List.Forall₂.cons rfl (List.Forall₂.cons rfl List.Forall₂.nil))
    anthropicStopChunk rfl [] none

/-- C9 counterexample: a stream that ends (transport reports `done`)
without a terminal marker resolves, but `onComplete` is never invoked -
the read loop just breaks (src/js/llm.js:107-108), so the silent stream
end is not surfaced as an implicit completion. -/
theorem C9_counterexample :
    (callLLMStreaming [⟨Role.user, "hi"⟩] "openai" "key"
        { reject := none, ok := true, status := 200, hasReader := true
          chunks := [openaiTokenChunk "Hel"], readError := none }).events
      = [CbEvent.token (Json.str "Hel")]
    ∧ CbEvent.complete ∉ (callLLMStreaming [⟨Role.user, "hi"⟩] "openai" "key"
        { reject := none, ok := true, status := 200, hasReader := true
          chunks := [openaiTokenChunk "Hel"], readError := none }).events
    ∧ (callLLMStreaming [⟨Role.user, "hi"⟩] "openai" "key"
        { reject := none, ok := true, status := 200, hasReader := true
          chunks := [openaiTokenChunk "Hel"], readError := none }).outcome = none := by
  refine ⟨rfl, ?_, rfl⟩
  rw [show (callLLMStreaming [⟨Role.user, "hi"⟩] "openai" "key"
      { reject := none, ok := true, status := 200, hasReader := true
        chunks := [openaiTokenChunk "Hel"], readError := none }).events
    = [CbEvent.token (Json.str "Hel")] from rfl]
  intro hmem
  exact CbEvent.noConfusion (List.mem_singleton.mp hmem)

/-- C9 (amended): for every supported provider, when the frame sequence
ends without an explicit terminal marker the adapter's processing
terminates and the call resolves (no hang, no rejection), but - contrary
to the claim - the silent stream end is NOT treated as an implicit
completion: `onComplete` is never invoked; the trace consists of token
events only. -/
theorem C9_silent_end (p : String) (hp : p ∈ supportedProviders)
    (messages : List ChatMessage) (apiKey : String)
    (hm : ∃ m ∈ messages, m.role ≠ Role.system) (t : StreamFetch)
    (h0 : t.reject = none) (h1 : t.ok = true) (h2 : t.hasReader = true)
    (h3 : t.readError = none) (evs : List CbEvent)
    (hc : runChunks (providerHandler p) t.chunks = (evs, false)) :
    (callLLMStreaming messages p apiKey t).outcome = none
    ∧ (callLLMStreaming messages p apiKey t).events = evs
    ∧ eventsTokenOnly (callLLMStreaming messages p apiKey t).events
    ∧ CbEvent.complete ∉ (callLLMStreaming messages p apiKey t).events := by
  have hse := streamEvents_supported p hp messages apiKey hm t h0 h1 h2
  have hevs : (callLLMStreaming messages p apiKey t).events = evs := by
    rw [hse.1, h3]
    exact runStreamBody_of_continue_none _ _ _ hc
  have htok : eventsTokenOnly evs :=
    runChunks_continue_tokens _ (providerHandler_shape p) _ _ hc
  refine ⟨hse.2, hevs, ?_, ?_⟩
  · rw [hevs]
    exact htok
  · rw [hevs]
    intro hmem
    rcases htok _ hmem with ⟨v, hv⟩
    exact CbEvent.noConfusion hv

theorem C9_silent_end_witness :
    (callLLMStreaming [⟨Role.user, "hi"⟩] "cohere" "key"
        { reject := none, ok := true, status := 200, hasReader := true
          chunks := [cohereTokenChunk "Hel"], readError := none }).outcome = none
    ∧ (callLLMStreaming [⟨Role.user, "hi"⟩] "cohere" "key"
        { reject := none, ok := true, status := 200, hasReader := true
          chunks := [cohereTokenChunk "Hel"], readError := none }).events
      = [CbEvent.token (Json.str "Hel")]
    ∧ eventsTokenOnly (callLLMStreaming [⟨Role.user, "hi"⟩] "cohere" "key"
        { reject := none, ok := true, status := 200, hasReader := true
          chunks := [cohereTokenChunk "Hel"], readError := none }).events
    ∧ CbEvent.complete ∉ (callLLMStreaming [⟨Role.user, "hi"⟩] "cohere" "key"
        { reject := none, ok := true, status := 200, hasReader := true
          chunks := [cohereTokenChunk "Hel"], readError := none }).events :=
  C9_silent_end "cohere" (by decide) [⟨Role.user, "hi"⟩] "key"
    ⟨⟨Role.user, "hi"⟩, by decide⟩
    { reject := none, ok := true, status := 200, hasReader := true
      chunks := [cohereTokenChunk "Hel"], readError := none }
    rfl rfl rfl rfl [CbEvent.token (Json.str "Hel")] rfl

/-- The Cohere streaming adapter, under its precondition, issues exactly
one request whose only conversational payload is the last non-system
message's content. -/
theorem callCohereStreaming_requests (messages : List ChatMessage) (apiKey : String)
    (t : StreamFetch) (last : ChatMessage)
    (hl : (nonSystemMessages messages).getLast? = some last) :
    (callCohereStreaming messages apiKey t).requests
      = [Request.cohere
          { apiKey := apiKey, model := COHERE_MODEL
            message := last.content
            preamble := systemSlot messages, stream := true }] := by
  unfold callCohereStreaming
  simp only [hl]
  rcases t with ⟨reject, ok, status, hasReader, chunks, readError⟩
  rcases reject with _ | e
  · dsimp only
    split
    · rfl
    · split <;> rfl
  · rfl

/-- C10: the Cohere adapters carry the unstated precondition that the
conversation holds at least one non-system message.  Under it, the last
non-system message exists and its content becomes the request's
`message`.  For an input of only system messages (or an empty list), the
unguarded `lastMessage.content` access (src/js/llm.js:62,71 and 203,212)
dereferences an absent element: both adapters reject with a `TypeError`
before any request is issued or any callback fired - no provider error
is produced. -/
theorem C10_cohere_precondition :
    (∀ (messages : List ChatMessage) (apiKey : String)
        (ts : SingleFetch) (tt : StreamFetch),
      (∃ m ∈ messages, m.role ≠ Role.system) →
      ∃ last, (nonSystemMessages messages).getLast? = some last
        ∧ (∃ req, (callCohere messages apiKey ts).requests = [Request.cohere req]
            ∧ req.message = last.content)
        ∧ (∃ req, (callCohereStreaming messages apiKey tt).requests = [Request.cohere req]
            ∧ req.message = last.content))
    ∧ (∀ (messages : List ChatMessage) (apiKey : String)
        (ts : SingleFetch) (tt : StreamFetch),
        (∀ m ∈ messages, m.role = Role.system) →
        callCohere messages apiKey ts
          = { requests := [], result := Except.error contentOfUndefined }
        ∧ callCohereStreaming messages apiKey tt
          = { requests := [], events := [], outcome := some contentOfUndefined }) := by
  constructor
  · intro messages apiKey ts tt hm
    obtain ⟨l, hl⟩ := nonSystem_getLast messages hm
    exact ⟨l, hl, ⟨_, callCohere_requests messages apiKey ts l hl, rfl⟩,
      ⟨_, callCohereStreaming_requests messages apiKey tt l hl, rfl⟩⟩
  · intro messages apiKey ts tt hall
    have hnil : nonSystemMessages messages = [] := by
      unfold nonSystemMessages
      rw [List.filter_eq_nil]
      intro m hmem
      simpa using hall m hmem
    constructor
    · unfold callCohere
      simp [hnil]
    · unfold callCohereStreaming
      simp [hnil]

theorem C10_cohere_precondition_witness :
    (∃ last, (nonSystemMessages [⟨Role.user, "hi"⟩]).getLast? = some last
      ∧ (∃ req, (callCohere [⟨Role.user, "hi"⟩] "key"
            { reject := none, ok := true, status := 200, body := Json.null }).requests
          = [Request.cohere req] ∧ req.message = last.content)
      ∧ (∃ req, (callCohereStreaming [⟨Role.user, "hi"⟩] "key"
            { reject := none, ok := true, status := 200, hasReader := true
              chunks := [], readError := none }).requests
          = [Request.cohere req] ∧ req.message = last.content))
    ∧ (callCohere [⟨Role.system, "S"⟩] "key"
          { reject := none, ok := true, status := 200, body := Json.null }
        = { requests := [], result := Except.error contentOfUndefined }
      ∧ callCohereStreaming [⟨Role.system, "S"⟩] "key"
          { reject := none, ok := true, status := 200, hasReader := true
            chunks := [], readError := none }
        = { requests := [], events := [], outcome := some contentOfUndefined }) :=
  ⟨C10_cohere_precondition.1 [⟨Role.user, "hi"⟩] "key"
      { reject := none, ok := true, status := 200, body := Json.null }
      { reject := none, ok := true, status := 200, hasReader := true
        chunks := [], readError := none }
      ⟨⟨Role.user, "hi"⟩, by decide⟩,
    C10_cohere_precondition.2 [⟨Role.system, "S"⟩] "key"
      { reject := none, ok := true, status := 200, body := Json.null }
      { reject := none, ok := true, status := 200, hasReader := true
        chunks := [], readError := none }
      (by decide)⟩

end PaperLens
